import Mathlib

/-!
Formal model of the person-surveillance core of this repository: the
temporal smoothing filter, the occupancy state machine with its recording
and alert side effects (`src/detection_system.py`), the settings update of
the web front end (`src/app.py`), the tracking step, and the single-slot
latest-frame buffer shared between the grabber thread and the processing
loop.  Python floats on threshold comparisons are modelled as exact
rational/integer arithmetic (`sum(de) >= thresh * 0.6` becomes
`10 * sum ≥ 6 * thresh`), timestamps (`time.time()`) are explicit integer
arguments, and fallible external calls (video-writer opening, Twilio
message creation, tracker updates) are modelled by explicit boolean
outcome parameters.
-/

namespace Surveillance

/-- Last `n` elements of a list, as Python's `list(xs)[-n:]`. -/
def rtake (n : ℕ) (l : List α) : List α := l.drop (l.length - n)

/-- Middle element of the ascending sort of a five-element list; this is
`np.median` applied to five integers (the only arity the code uses). -/
def medianOfFive (l : List ℕ) : ℕ := (List.insertionSort (· ≤ ·) l).getD 2 0

/-- Append to a `deque(maxlen=30)`: the oldest element is evicted when the
deque is full. -/
def dequeApp (hist : List ℕ) (c : ℕ) : List ℕ :=
  if hist.length < 30 then hist ++ [c] else hist.tail ++ [c]

/-- `apply_smart_filtering` (detection_system.py, lines 186-192): append the
raw person count to the 30-slot history deque (oldest evicted when full),
return `count > 0` while fewer than 5 samples are collected, otherwise
`median(last 5 counts) > 0`.  Returns the new history and the boolean. -/
def applySmartFiltering (hist : List ℕ) (pc : ℕ) : List ℕ × Bool :=
  let h := dequeApp hist pc
  if h.length < 5 then (h, decide (0 < pc))
  else (h, decide (0 < medianOfFive (rtake 5 h)))

/-- Result of one `send_message` call (detection_system.py, lines 114-131). -/
inductive SendResult where
  | notConfigured
  | cooldownActive
  | sent
  | failed
deriving DecidableEq, Repr

/-- The mutable fields of `AdvancedPersonDetectionSystem` that the occupancy
state machine, the alert cooldown and the settings update touch.
`outPresent` models `self.out is not None`; `outOpen` models whether that
video writer is open (not yet released). -/
structure DetState where
  status : Bool
  initial_time : Option ℤ
  de : List Bool
  person_count_history : List ℕ
  detection_count : ℕ
  entry_time : Option ℤ
  outPresent : Bool
  outOpen : Bool
  detection_thresh : ℤ
  patience : ℤ
  area_threshold : ℤ
  confidence_threshold : ℚ
  twilio_enabled : Bool
  last_alert_time : ℤ
  alert_cooldown : ℤ
deriving DecidableEq, Repr

/-- The state set up by `__init__` (detection_system.py, lines 20-73). -/
def initState : DetState where
  status := false
  initial_time := none
  de := List.replicate 8 false
  person_count_history := []
  detection_count := 0
  entry_time := none
  outPresent := false
  outOpen := false
  detection_thresh := 8
  patience := 5
  area_threshold := 2000
  confidence_threshold := 1/2
  twilio_enabled := false
  last_alert_time := 0
  alert_cooldown := 300

/-- `send_message` (detection_system.py, lines 114-131): refuse when Twilio
is not configured; drop the alert when inside the cooldown window; otherwise
attempt the Twilio call (`ok` tells whether `client.messages.create`
succeeds) and record `last_alert_time` only on success. -/
def sendMessage (s : DetState) (now : ℤ) (ok : Bool) : DetState × SendResult :=
  if s.twilio_enabled = false then (s, SendResult.notConfigured)
  else if now - s.last_alert_time < s.alert_cooldown then (s, SendResult.cooldownActive)
  else if ok then ({ s with last_alert_time := now }, SendResult.sent)
  else (s, SendResult.failed)

/-- The EMPTY→OCCUPIED entry check of `process_frame`
(detection_system.py, lines 310-326): when the updated presence window
reaches 60 percent and the room is not yet occupied, set the occupancy
flag, record the entry time and open the video writer; opening may raise
(`writerFails`), in which case the writer is left as it was. -/
def entryStep (s : DetState) (de : List Bool) (now : ℤ) (writerFails : Bool) : DetState :=
  if 10 * (de.count true : ℤ) ≥ 6 * s.detection_thresh ∧ s.status = false then
    let sE := { s with status := true, entry_time := some now }
    if writerFails then sE else { sE with outPresent := true, outOpen := true }
  else s

/-- The borderline / exit chain of `process_frame` (detection_system.py,
lines 327-342): while occupied with the current smoothed boolean false,
a window above 30 percent arms the exit timer if it is not already armed;
a window at or below 30 percent with the timer armed for at least
`patience` seconds performs the exit (clear the occupancy flag, release
the writer when present, clear the timer, dispatch the alert).  While
occupied with the smoothed boolean true and the window above 30 percent,
the timer is cleared. -/
def exitStep (s : DetState) (de : List Bool) (pd : Bool) (now : ℤ) (sendOk : Bool) :
    DetState :=
  if s.status = true ∧ pd = false then
    if 10 * (de.count true : ℤ) > 3 * s.detection_thresh then
      if s.initial_time = none then { s with initial_time := some now } else s
    else
      match s.initial_time with
      | none => s
      | some t0 =>
        if now - t0 ≥ s.patience then
          let sX := { s with status := false }
          let sX := if sX.outPresent then { sX with outOpen := false } else sX
          (sendMessage { sX with initial_time := none } now sendOk).1
        else s
  else if s.status = true ∧ 10 * (de.count true : ℤ) > 3 * s.detection_thresh then
    { s with initial_time := none }
  else s

/-- The occupancy-state-machine portion of `process_frame`
(detection_system.py, lines 308-342 and 379-380), for one processed frame:
smoothing, the presence window push, the entry check, the borderline /
exit chain, and the lifetime detection counter.  `now` stands for the
frame's wall-clock time. -/
def processFrameUpdate (s : DetState) (pc : ℕ) (now : ℤ)
    (writerFails : Bool) (sendOk : Bool) : DetState :=
  let pd := (applySmartFiltering s.person_count_history pc).2
  let de : List Bool := (pd :: s.de).take s.detection_thresh.toNat
  let s1 : DetState :=
    { s with person_count_history := (applySmartFiltering s.person_count_history pc).1,
             de := de }
  let s3 := exitStep (entryStep s1 de now writerFails) de pd now sendOk
  if pd then { s3 with detection_count := s3.detection_count + 1 } else s3

/-- `stop_camera` (detection_system.py, lines 267-278): release the video
writer when one exists and clear the occupancy flag. -/
def stopCamera (s : DetState) : DetState :=
  let s1 := if s.outPresent then { s with outOpen := false } else s
  { s1 with status := false }

/-- `update_settings` (app.py, lines 22-28): store the four values
unconditionally, in order, then rebuild the presence window as an all-false
deque of the new size.  A negative `detection_thresh` makes the deque
constructor raise `ValueError` (maxlen must be non-negative) after the four
assignments have already happened; the returned boolean is `true` when the
call completes without raising. -/
def updateSettings (s : DetState) (confidence : ℚ) (area : ℤ) (patience : ℤ)
    (thresh : ℤ) : DetState × Bool :=
  let s1 := { s with confidence_threshold := confidence, area_threshold := area,
                     patience := patience, detection_thresh := thresh }
  if 0 ≤ thresh then ({ s1 with de := List.replicate thresh.toNat false }, true)
  else (s1, false)

/-- One detection surviving confidence and area filtering
(detection_system.py, lines 150-155), reduced to the fields `track_persons`
consumes. -/
structure PersonObs where
  x1 : ℤ
  y1 : ℤ
  x2 : ℤ
  y2 : ℤ
  confidence : ℚ
deriving DecidableEq, Repr

/-- `track_persons` (detection_system.py, lines 165-184), reduced to the
person count it returns: `0` when the tracker is uninitialized, `0` on an
empty detection list, and `len(detections)` otherwise — both when
`tracker.update` succeeds and when it raises (`updateRaises`). -/
def trackPersons (trackerInit : Bool) (updateRaises : Bool)
    (dets : List PersonObs) : ℕ :=
  if trackerInit = false then 0
  else if dets.isEmpty then 0
  else if updateRaises then dets.length
  else dets.length

/-- Public operations reachable from the web layer that drive `DetState`. -/
inductive SysOp where
  | frame (pc : ℕ) (now : ℤ) (writerFails sendOk : Bool)
  | stopCam
deriving DecidableEq, Repr

/-- Apply one public operation. -/
def applyOp (s : DetState) : SysOp → DetState
  | SysOp.frame pc now wf ok => processFrameUpdate s pc now wf ok
  | SysOp.stopCam => stopCamera s

/-- Run a sequence of public operations from the freshly constructed
system. -/
def runOps (ops : List SysOp) : DetState := ops.foldl applyOp initState

/-- Presence window after this frame's push (the window the transition
conditions of `process_frame` read). -/
def newWindow (s : DetState) (pc : ℕ) : List Bool :=
  ((applySmartFiltering s.person_count_history pc).2 :: s.de).take s.detection_thresh.toNat

/-- Number of `True` entries of a presence window (`sum(self.de)`). -/
def winSum (w : List Bool) : ℕ := w.count true

/-- Smoother history after feeding a whole count sequence from a fresh
system (`person_count_history` starts empty). -/
def smootherHist (cs : List ℕ) : List ℕ :=
  cs.foldl (fun h c => (applySmartFiltering h c).1) []

/-- Result of the smoother on the update that follows the count sequence
`cs`, i.e. on the `(cs.length + 1)`-th update. -/
def smootherOut (cs : List ℕ) (c : ℕ) : Bool :=
  (applySmartFiltering (smootherHist cs) c).2

/-- Events of the producer/consumer frame pipeline: a successful camera
read stored by `threaded_frame_grabber` (detection_system.py, lines
206-221), or a fetch of the latest frame by `process_frame` (lines
294-300).  Frames are abstracted to their identity. -/
inductive BufEvent where
  | produce (f : ℕ)
  | consume
deriving DecidableEq, Repr

/-- The single-slot buffer state: `slot` is `self.latest_frame`;
`consumed` records, in order, what each consumer fetch observed. -/
structure BufState where
  slot : Option ℕ
  consumed : List (Option ℕ)
deriving DecidableEq, Repr

/-- One interleaving step: a producer write overwrites the slot (the lock
makes each access atomic); a consumer fetch copies the slot out. -/
def bufStep (s : BufState) : BufEvent → BufState
  | BufEvent.produce f => { s with slot := some f }
  | BufEvent.consume => { s with consumed := s.consumed ++ [s.slot] }

/-- Run an interleaving from the empty buffer (`self.latest_frame = None`). -/
def bufRun (evs : List BufEvent) : BufState :=
  evs.foldl bufStep { slot := none, consumed := [] }

/-- Number of frames currently buffered. -/
def bufCount (s : BufState) : ℕ := if s.slot.isSome then 1 else 0

/-- Most recent produced frame of an event sequence, continuing from a
current slot value. -/
def lastProducedFrom (cur : Option ℕ) : List BufEvent → Option ℕ
  | [] => cur
  | BufEvent.produce f :: rest => lastProducedFrom (some f) rest
  | BufEvent.consume :: rest => lastProducedFrom cur rest

/-- Most recent produced frame of an event sequence. -/
def lastProduced (evs : List BufEvent) : Option ℕ := lastProducedFrom none evs

/-- What the consumer fetches at each `consume` of an interleaving: always
the most recently produced frame at that point (or `none` before the first
read succeeds). -/
def consumeTrace (cur : Option ℕ) : List BufEvent → List (Option ℕ)
  | [] => []
  | BufEvent.produce f :: rest => consumeTrace (some f) rest
  | BufEvent.consume :: rest => cur :: consumeTrace cur rest

/-- Smoothed single-frame presence boolean fed into the presence window. -/
def smoothedOf (s : DetState) (pc : ℕ) : Bool :=
  (applySmartFiltering s.person_count_history pc).2

/-- A state mid-session with the exit timer armed, the window still above
the 30-percent line, and a recording running. -/
def pendingState : DetState :=
  { initState with status := true, initial_time := some 10, entry_time := some 3,
                   de := [true, true, true, false, false, false, false, true],
                   outPresent := true, outOpen := true }

/-- An EMPTY state whose window is one `true` short of the 60-percent
entry line. -/
def almostFullState : DetState :=
  { initState with de := [true, true, true, true, true, false, false, false] }

/-- A full occupancy session driven through the public interface: five
frames that see one person (the fifth sustained frame crosses the
60-percent entry line), then eight empty frames; the window falls below
30 percent on the eighth while the exit timer (armed at time 8) has
aged past the 5-second patience, so the session exits at time 13. -/
def sessionOps : List SysOp :=
  [SysOp.frame 1 1 false true, SysOp.frame 1 2 false true, SysOp.frame 1 3 false true,
   SysOp.frame 1 4 false true, SysOp.frame 1 5 false true,
   SysOp.frame 0 6 false true, SysOp.frame 0 7 false true, SysOp.frame 0 8 false true,
   SysOp.frame 0 9 false true, SysOp.frame 0 10 false true, SysOp.frame 0 11 false true,
   SysOp.frame 0 12 false true, SysOp.frame 0 13 false true]

/-- A single person observation. -/
def obs1 : PersonObs := { x1 := 0, y1 := 0, x2 := 10, y2 := 10, confidence := 9/10 }

/-- A sequence of alert-dispatch calls (each with its wall-clock time and
whether the Twilio call would succeed), processed in order through
`send_message`; returns each call's time and result. -/
def runDispatches (s : DetState) : List (ℤ × Bool) → List (ℤ × SendResult)
  | [] => []
  | c :: rest =>
      (c.1, (sendMessage s c.1 c.2).2) :: runDispatches (sendMessage s c.1 c.2).1 rest

/-- Times of the dispatch calls that were actually sent. -/
def sentTimes (s : DetState) (calls : List (ℤ × Bool)) : List ℤ :=
  (runDispatches s calls).filterMap fun p =>
    if p.2 = SendResult.sent then some p.1 else none

/-! ## Lemmas about `rtake` and the smoother -/

theorem length_rtake (n : ℕ) (l : List α) : (rtake n l).length = min n l.length := by
  simp only [rtake, List.length_drop]
  omega

theorem rtake_of_length_le (n : ℕ) (l : List α) (h : l.length ≤ n) : rtake n l = l := by
  simp [rtake, Nat.sub_eq_zero_of_le h]

theorem rtake_rtake (m n : ℕ) (l : List α) (h : n ≤ m) :
    rtake n (rtake m l) = rtake n l := by
  unfold rtake
  rw [List.length_drop, List.drop_drop]
  congr 1
  omega

theorem applySmart_fst (hist : List ℕ) (pc : ℕ) :
    (applySmartFiltering hist pc).1 = dequeApp hist pc := by
  simp only [applySmartFiltering]
  split <;> rfl

theorem applySmart_snd (hist : List ℕ) (pc : ℕ) :
    (applySmartFiltering hist pc).2 =
      if (dequeApp hist pc).length < 5 then decide (0 < pc)
      else decide (0 < medianOfFive (rtake 5 (dequeApp hist pc))) := by
  simp only [applySmartFiltering]
  split <;> simp_all

theorem dequeApp_rtake (cs : List ℕ) (c : ℕ) :
    dequeApp (rtake 30 cs) c = rtake 30 (cs ++ [c]) := by
  by_cases hlen : cs.length < 30
  · rw [rtake_of_length_le 30 cs (by omega),
      rtake_of_length_le 30 (cs ++ [c]) (by simp; omega)]
    simp [dequeApp, hlen]
  · have h30 : (rtake 30 cs).length = 30 := by rw [length_rtake]; omega
    unfold dequeApp
    rw [if_neg (by omega)]
    unfold rtake
    rw [List.tail_drop, List.length_append, List.length_singleton,
      List.drop_append_of_le_length (by omega)]
    congr 2
    omega

theorem smootherHist_eq (cs : List ℕ) : smootherHist cs = rtake 30 cs := by
  induction cs using List.reverseRecOn with
  | nil => rfl
  | append_singleton cs c ih =>
    simp only [smootherHist, List.foldl_append, List.foldl_cons, List.foldl_nil]
    rw [← smootherHist, ih, applySmart_fst, dequeApp_rtake]

theorem smootherOut_eq (cs : List ℕ) (c : ℕ) :
    smootherOut cs c =
      if cs.length < 4 then decide (0 < c)
      else decide (0 < medianOfFive (rtake 5 (cs ++ [c]))) := by
  unfold smootherOut
  rw [smootherHist_eq, applySmart_snd, dequeApp_rtake]
  have hlen : (rtake 30 (cs ++ [c])).length = min 30 (cs.length + 1) := by
    rw [length_rtake]; simp
  by_cases h4 : cs.length < 4
  · rw [if_pos (by omega), if_pos (by omega)]
  · rw [if_neg (by omega), if_neg (by omega), rtake_rtake 30 5 _ (by omega)]

/-! ## Lemmas about the state-machine steps -/

theorem winSum_eq (w : List Bool) : (winSum w : ℤ) = (w.count true : ℤ) := rfl

theorem processFrameUpdate_def (s : DetState) (pc : ℕ) (now : ℤ) (wf ok : Bool) :
    processFrameUpdate s pc now wf ok =
      (fun s3 : DetState =>
          if smoothedOf s pc then { s3 with detection_count := s3.detection_count + 1 }
          else s3)
        (exitStep
          (entryStep
            { s with person_count_history := (applySmartFiltering s.person_count_history pc).1,
                     de := newWindow s pc }
            (newWindow s pc) now wf)
          (newWindow s pc) (smoothedOf s pc) now ok) := rfl

theorem dstep_status (b : Bool) (s3 : DetState) :
    ((fun s3 : DetState =>
        if b then { s3 with detection_count := s3.detection_count + 1 } else s3) s3).status
      = s3.status := by cases b <;> rfl

theorem dstep_entry_time (b : Bool) (s3 : DetState) :
    ((fun s3 : DetState =>
        if b then { s3 with detection_count := s3.detection_count + 1 } else s3) s3).entry_time
      = s3.entry_time := by cases b <;> rfl

theorem dstep_outOpen (b : Bool) (s3 : DetState) :
    ((fun s3 : DetState =>
        if b then { s3 with detection_count := s3.detection_count + 1 } else s3) s3).outOpen
      = s3.outOpen := by cases b <;> rfl

theorem dstep_outPresent (b : Bool) (s3 : DetState) :
    ((fun s3 : DetState =>
        if b then { s3 with detection_count := s3.detection_count + 1 } else s3) s3).outPresent
      = s3.outPresent := by cases b <;> rfl

theorem dstep_initial_time (b : Bool) (s3 : DetState) :
    ((fun s3 : DetState =>
        if b then { s3 with detection_count := s3.detection_count + 1 } else s3) s3).initial_time
      = s3.initial_time := by cases b <;> rfl

theorem entryStep_fire_wfail (s : DetState) (de : List Bool) (now : ℤ)
    (hhigh : 10 * (de.count true : ℤ) ≥ 6 * s.detection_thresh) (hst : s.status = false) :
    entryStep s de now true = { s with status := true, entry_time := some now } := by
  unfold entryStep
  rw [if_pos ⟨hhigh, hst⟩]
  rfl

theorem entryStep_fire_wok (s : DetState) (de : List Bool) (now : ℤ)
    (hhigh : 10 * (de.count true : ℤ) ≥ 6 * s.detection_thresh) (hst : s.status = false) :
    entryStep s de now false =
      { s with status := true, entry_time := some now,
               outPresent := true, outOpen := true } := by
  unfold entryStep
  rw [if_pos ⟨hhigh, hst⟩]
  rfl

theorem entryStep_skip (s : DetState) (de : List Bool) (now : ℤ) (wf : Bool)
    (h : ¬(10 * (de.count true : ℤ) ≥ 6 * s.detection_thresh ∧ s.status = false)) :
    entryStep s de now wf = s := by
  unfold entryStep
  rw [if_neg h]

theorem sendMessage_cases (s : DetState) (now : ℤ) (ok : Bool) :
    (sendMessage s now ok).1 = s ∨
    (sendMessage s now ok).1 = { s with last_alert_time := now } := by
  unfold sendMessage
  split_ifs <;> simp

theorem exitStep_high (s : DetState) (de : List Bool) (pd : Bool) (now : ℤ) (ok : Bool)
    (hhigh : 10 * (de.count true : ℤ) > 3 * s.detection_thresh) :
    exitStep s de pd now ok =
      if s.status = true ∧ pd = false then
        (if s.initial_time = none then { s with initial_time := some now } else s)
      else if s.status = true then { s with initial_time := none } else s := by
  unfold exitStep
  by_cases h1 : s.status = true ∧ pd = false
  · rw [if_pos h1, if_pos h1, if_pos hhigh]
  · rw [if_neg h1, if_neg h1]
    by_cases h2 : s.status = true
    · rw [if_pos ⟨h2, hhigh⟩, if_pos h2]
    · rw [if_neg (fun hc => h2 hc.1), if_neg h2]

theorem exitStep_idle (s : DetState) (de : List Bool) (pd : Bool) (now : ℤ) (ok : Bool)
    (hst : s.status = false) :
    exitStep s de pd now ok = s := by
  unfold exitStep
  rw [if_neg (by simp [hst]), if_neg (by simp [hst])]

theorem sendMessage_entry_time (s : DetState) (now : ℤ) (ok : Bool) :
    (sendMessage s now ok).1.entry_time = s.entry_time := by
  unfold sendMessage
  split_ifs <;> rfl

theorem sendMessage_outOpen (s : DetState) (now : ℤ) (ok : Bool) :
    (sendMessage s now ok).1.outOpen = s.outOpen := by
  unfold sendMessage
  split_ifs <;> rfl

theorem exitStep_entry_time (s : DetState) (de : List Bool) (pd : Bool) (now : ℤ) (ok : Bool) :
    (exitStep s de pd now ok).entry_time = s.entry_time := by
  unfold exitStep
  split_ifs <;> try rfl
  cases hI : s.initial_time with
  | none => rfl
  | some t0 =>
    dsimp only
    split_ifs <;> first | rfl | rw [sendMessage_entry_time]

theorem exitStep_outOpen (s : DetState) (de : List Bool) (pd : Bool) (now : ℤ) (ok : Bool)
    (h : (exitStep s de pd now ok).outOpen = true) : s.outOpen = true := by
  revert h
  unfold exitStep
  split_ifs <;> try exact id
  cases hI : s.initial_time with
  | none => exact id
  | some t0 =>
    dsimp only
    split_ifs <;> first | exact id | (rw [sendMessage_outOpen]; exact id) |
      (rw [sendMessage_outOpen]; intro h; exact absurd h (by simp))

theorem pfu_entry_fire (s : DetState) (pc : ℕ) (now : ℤ) (wf ok : Bool)
    (hst : s.status = false) (ht : 1 ≤ s.detection_thresh)
    (hhigh : 10 * ((newWindow s pc).count true : ℤ) ≥ 6 * s.detection_thresh) :
    (processFrameUpdate s pc now wf ok).status = true ∧
    (processFrameUpdate s pc now wf ok).entry_time = some now ∧
    (wf = false → (processFrameUpdate s pc now wf ok).outOpen = true) := by
  rw [processFrameUpdate_def]
  set w := newWindow s pc with hw
  set S1 : DetState :=
    { s with person_count_history := (applySmartFiltering s.person_count_history pc).1,
             de := w } with hS1
  have hhigh3 : 10 * (w.count true : ℤ) > 3 * s.detection_thresh := by omega
  cases wf with
  | true =>
    rw [entryStep_fire_wfail S1 w now (by exact hhigh) (by exact hst)]
    rw [exitStep_high { S1 with status := true, entry_time := some now } w
        (smoothedOf s pc) now ok (by exact hhigh3)]
    refine ⟨?_, ?_, fun hwf => by cases hwf⟩
    · rw [dstep_status]
      split_ifs <;> rfl
    · rw [dstep_entry_time]
      split_ifs <;> rfl
  | false =>
    rw [entryStep_fire_wok S1 w now (by exact hhigh) (by exact hst)]
    rw [exitStep_high
        { S1 with status := true, entry_time := some now,
                  outPresent := true, outOpen := true } w
        (smoothedOf s pc) now ok (by exact hhigh3)]
    refine ⟨?_, ?_, fun _ => ?_⟩
    · rw [dstep_status]
      split_ifs <;> rfl
    · rw [dstep_entry_time]
      split_ifs <;> rfl
    · rw [dstep_outOpen]
      split_ifs <;> rfl

theorem pfu_no_fire (s : DetState) (pc : ℕ) (now : ℤ) (wf ok : Bool)
    (hst : s.status = false)
    (hlow : ¬ 10 * ((newWindow s pc).count true : ℤ) ≥ 6 * s.detection_thresh) :
    (processFrameUpdate s pc now wf ok).status = false := by
  rw [processFrameUpdate_def]
  set w := newWindow s pc with hw
  set S1 : DetState :=
    { s with person_count_history := (applySmartFiltering s.person_count_history pc).1,
             de := w } with hS1
  rw [entryStep_skip S1 w now wf (fun hc => hlow hc.1)]
  rw [exitStep_idle S1 w (smoothedOf s pc) now ok (by exact hst)]
  rw [dstep_status]
  exact hst

theorem pfu_occupied (s : DetState) (pc : ℕ) (now : ℤ) (wf ok : Bool)
    (hst : s.status = true) :
    (processFrameUpdate s pc now wf ok).entry_time = s.entry_time ∧
    ((processFrameUpdate s pc now wf ok).outOpen = true → s.outOpen = true) := by
  rw [processFrameUpdate_def]
  set w := newWindow s pc with hw
  set S1 : DetState :=
    { s with person_count_history := (applySmartFiltering s.person_count_history pc).1,
             de := w } with hS1
  have hskip : entryStep S1 w now wf = S1 :=
    entryStep_skip S1 w now wf (by rw [hS1]; simp [hst])
  rw [hskip]
  constructor
  · rw [dstep_entry_time, exitStep_entry_time]
  · intro h
    rw [dstep_outOpen] at h
    exact exitStep_outOpen S1 w (smoothedOf s pc) now ok h

/-! ## Claim theorems -/

/-- C3: for every sequence of raw person counts, the smoother's update
returns `rawPersonCount > 0` while fewer than 5 samples have been
collected, and `median(most recent 5 raw counts) > 0` once 5 or more have
been collected; the count sequence `[0,0,3,0,2]` yields `false` on the
fifth update and `[1,1,1,0,0]` yields `true` on the fifth update. -/
theorem temporal_smoother_contract (cs : List ℕ) (c : ℕ) :
    (cs.length < 4 → smootherOut cs c = decide (0 < c)) ∧
    (4 ≤ cs.length →
      smootherOut cs c = decide (0 < medianOfFive (rtake 5 (cs ++ [c])))) ∧
    smootherOut [0, 0, 3, 0] 2 = false ∧
    smootherOut [1, 1, 1, 0] 0 = true := by
  refine ⟨fun h4 => ?_, fun h4 => ?_, by decide, by decide⟩
  · rw [smootherOut_eq, if_pos h4]
  · rw [smootherOut_eq, if_neg (by omega)]

/-- Witness for C3: the median branch on the fifth update of the second
scenario. -/
theorem temporal_smoother_contract_witness :
    smootherOut [1, 1, 1, 0] 0 =
      decide (0 < medianOfFive (rtake 5 ([1, 1, 1, 0] ++ [0]))) :=
  (temporal_smoother_contract [1, 1, 1, 0] 0).2.1 (by decide)

/-- C9: a dispatch on which the notification channel raises leaves the
whole system state — in particular `last_alert_time` — unchanged, so a
failed alert does not consume the cooldown window: any later dispatch
behaves exactly as if the failed one had not happened. -/
theorem failed_alert_preserves_cooldown (s : DetState) (now : ℤ) :
    (sendMessage s now false).1 = s ∧
    ∀ t ok, sendMessage (sendMessage s now false).1 t ok = sendMessage s t ok := by
  have h : (sendMessage s now false).1 = s := by
    unfold sendMessage
    split_ifs <;> simp_all
  exact ⟨h, fun t ok => by rw [h]⟩

/-- C10: during an EMPTY→OCCUPIED transition the occupancy state is
committed before the video writer is opened: when opening the writer
raises, the update still yields an OCCUPIED state with the entry
timestamp recorded, and the writer fields are exactly as they were before
the frame (the session proceeds with no newly opened recorder). -/
theorem entry_commits_before_writer (s : DetState) (pc : ℕ) (now : ℤ) (ok : Bool)
    (hst : s.status = false) (ht : 1 ≤ s.detection_thresh)
    (hhigh : 10 * (winSum (newWindow s pc) : ℤ) ≥ 6 * s.detection_thresh) :
    (processFrameUpdate s pc now true ok).status = true ∧
    (processFrameUpdate s pc now true ok).entry_time = some now ∧
    (processFrameUpdate s pc now true ok).outOpen = s.outOpen ∧
    (processFrameUpdate s pc now true ok).outPresent = s.outPresent := by
  rw [processFrameUpdate_def]
  rw [winSum_eq] at hhigh
  set w := newWindow s pc with hw
  set S1 : DetState :=
    { s with person_count_history := (applySmartFiltering s.person_count_history pc).1,
             de := w } with hS1
  have hhigh3 : 10 * (w.count true : ℤ) > 3 * s.detection_thresh := by omega
  rw [entryStep_fire_wfail S1 w now (by exact hhigh) (by exact hst)]
  rw [exitStep_high { S1 with status := true, entry_time := some now } w
      (smoothedOf s pc) now ok (by exact hhigh3)]
  refine ⟨?_, ?_, ?_, ?_⟩ <;>
    · first
      | rw [dstep_status]
      | rw [dstep_entry_time]
      | rw [dstep_outOpen]
      | rw [dstep_outPresent]
      split_ifs <;> rfl

/-- Witness for C10: from an EMPTY state one presence short of the entry
line, a frame with one person crosses it while the writer fails to open;
the state is OCCUPIED with the entry time recorded and no open writer. -/
theorem entry_commits_before_writer_witness :
    (processFrameUpdate almostFullState 1 7 true true).status = true ∧
    (processFrameUpdate almostFullState 1 7 true true).entry_time = some 7 ∧
    (processFrameUpdate almostFullState 1 7 true true).outOpen = almostFullState.outOpen ∧
    (processFrameUpdate almostFullState 1 7 true true).outPresent
      = almostFullState.outPresent :=
  entry_commits_before_writer almostFullState 1 7 true (by decide) (by decide) (by decide)

/-- C1 counterexample: in an OCCUPIED state with the exit timer armed, a
frame whose updated window is above `0.3 * detectionThreshold` but whose
current smoothed boolean is `false` leaves `initial_time` armed —
`process_frame` does not cancel the pending exit in this case. -/
theorem pending_exit_counterexample :
    pendingState.status = true ∧
    pendingState.initial_time = some 10 ∧
    smoothedOf pendingState 0 = false ∧
    10 * (winSum (newWindow pendingState 0) : ℤ) > 3 * pendingState.detection_thresh ∧
    (processFrameUpdate pendingState 0 11 false true).initial_time = some 10 := by
  decide

/-- C1 (amended): in an OCCUPIED state with the exit timer armed, a frame
whose updated window is above `0.3 * detectionThreshold` clears the timer
exactly when the current smoothed presence boolean is `true`; when that
boolean is `false` the armed timer is left unchanged (never overwritten). -/
theorem pending_exit_clear_requires_presence (s : DetState) (pc : ℕ) (now : ℤ)
    (wf ok : Bool) (t0 : ℤ)
    (hst : s.status = true) (hpend : s.initial_time = some t0)
    (hhigh : 10 * (winSum (newWindow s pc) : ℤ) > 3 * s.detection_thresh) :
    (processFrameUpdate s pc now wf ok).initial_time =
      if smoothedOf s pc then none else some t0 := by
  rw [processFrameUpdate_def]
  rw [winSum_eq] at hhigh
  set w := newWindow s pc with hw
  set S1 : DetState :=
    { s with person_count_history := (applySmartFiltering s.person_count_history pc).1,
             de := w } with hS1
  have hskip : entryStep S1 w now wf = S1 :=
    entryStep_skip S1 w now wf (by rw [hS1]; simp [hst])
  rw [hskip]
  rw [exitStep_high S1 w (smoothedOf s pc) now ok (by exact hhigh)]
  rw [dstep_initial_time]
  cases hpd : smoothedOf s pc with
  | false => simp [hS1, hst, hpend]
  | true => simp [hS1, hst]

/-- Witness for C1 (amended): the timer clears on a presence frame. -/
theorem pending_exit_clear_requires_presence_witness :
    (processFrameUpdate pendingState 1 11 false true).initial_time =
      if smoothedOf pendingState 1 then none else some 10 :=
  pending_exit_clear_requires_presence pendingState 1 11 false true 10 rfl rfl (by decide)

/-- C2: the EMPTY→OCCUPIED transition fires exactly when the state is EMPTY
and the updated window reaches `0.6 * detectionThreshold`; on entry the
entry timestamp is recorded and (when the writer opens) a recording is
opened; an all-true window from EMPTY enters within one update; and no
update from OCCUPIED performs an entry transition (the entry timestamp is
untouched and no writer is newly opened). -/
theorem occupancy_entry_contract (s : DetState) (pc : ℕ) (now : ℤ) (wf ok : Bool)
    (hlen : s.de.length = s.detection_thresh.toNat) (ht : 1 ≤ s.detection_thresh) :
    (s.status = false →
      ((processFrameUpdate s pc now wf ok).status = true ↔
        10 * (winSum (newWindow s pc) : ℤ) ≥ 6 * s.detection_thresh)) ∧
    (s.status = false → wf = false →
      10 * (winSum (newWindow s pc) : ℤ) ≥ 6 * s.detection_thresh →
      (processFrameUpdate s pc now wf ok).entry_time = some now ∧
      (processFrameUpdate s pc now wf ok).outOpen = true) ∧
    (s.status = false → (∀ b ∈ newWindow s pc, b = true) →
      (processFrameUpdate s pc now wf ok).status = true) ∧
    (s.status = true →
      (processFrameUpdate s pc now wf ok).entry_time = s.entry_time ∧
      ((processFrameUpdate s pc now wf ok).outOpen = true → s.outOpen = true)) := by
  refine ⟨fun hstf => ?_, fun hstf hwf hhigh => ?_, fun hstf hall => ?_,
    fun hstt => pfu_occupied s pc now wf ok hstt⟩
  · rw [winSum_eq]
    constructor
    · intro hdone
      by_contra hlow
      have h0 := pfu_no_fire s pc now wf ok hstf hlow
      rw [h0] at hdone
      cases hdone
    · intro hhigh
      exact (pfu_entry_fire s pc now wf ok hstf ht hhigh).1
  · rw [winSum_eq] at hhigh
    obtain ⟨h1, h2, h3⟩ := pfu_entry_fire s pc now wf ok hstf ht hhigh
    exact ⟨h2, h3 hwf⟩
  · have hwl : (newWindow s pc).length = s.detection_thresh.toNat := by
      simp only [newWindow, List.length_take, List.length_cons, hlen]
      omega
    have hcnt : (newWindow s pc).count true = (newWindow s pc).length :=
      List.count_eq_length.2 fun b hb => (hall b hb).symm
    have hhigh : 10 * ((newWindow s pc).count true : ℤ) ≥ 6 * s.detection_thresh := by
      rw [hcnt, hwl]
      omega
    exact (pfu_entry_fire s pc now wf ok hstf ht hhigh).1

/-- Witness for C2: one presence frame from an EMPTY state whose window
is one short of the entry line records the entry time and opens the
recording. -/
theorem occupancy_entry_contract_witness :
    (processFrameUpdate almostFullState 1 0 false true).entry_time = some 0 ∧
    (processFrameUpdate almostFullState 1 0 false true).outOpen = true :=
  (occupancy_entry_contract almostFullState 1 0 false true (by decide) (by decide)).2.1
    rfl rfl (by decide)

theorem entryStep_inv (s : DetState) (de : List Bool) (now : ℤ) (wf : Bool)
    (hs : s.outOpen = true → s.entry_time ≠ none) :
    (entryStep s de now wf).outOpen = true → (entryStep s de now wf).entry_time ≠ none := by
  unfold entryStep
  split_ifs with h1 h2
  · intro _
    simp
  · intro _
    simp
  · exact hs

theorem pfu_inv (s : DetState) (pc : ℕ) (now : ℤ) (wf ok : Bool)
    (hs : s.outOpen = true → s.entry_time ≠ none) :
    (processFrameUpdate s pc now wf ok).outOpen = true →
    (processFrameUpdate s pc now wf ok).entry_time ≠ none := by
  rw [processFrameUpdate_def]
  set w := newWindow s pc with hw
  set S1 : DetState :=
    { s with person_count_history := (applySmartFiltering s.person_count_history pc).1,
             de := w } with hS1
  intro h
  rw [dstep_outOpen] at h
  rw [dstep_entry_time, exitStep_entry_time]
  have h2 := exitStep_outOpen _ w (smoothedOf s pc) now ok h
  exact entryStep_inv S1 w now wf (by exact hs) h2

theorem stopCamera_inv (s : DetState)
    (hs : s.outOpen = true → s.entry_time ≠ none) :
    (stopCamera s).outOpen = true → (stopCamera s).entry_time ≠ none := by
  unfold stopCamera
  split_ifs with hp
  · intro h
    exact absurd h (by simp)
  · exact hs

set_option maxRecDepth 4000 in
/-- C4 counterexample: a full occupancy session driven through the public
operations (entry at time 5, exit at time 13) ends with `entry_time` still
set while the writer has been released — after the exit transition the
claimed biconditional between a non-null `entry_time` and an active
recording fails. -/
theorem entry_time_iff_recording_counterexample :
    (runOps sessionOps).status = false ∧
    (runOps sessionOps).entry_time = some 5 ∧
    (runOps sessionOps).outOpen = false := by
  decide

/-- C4 (amended): in every state reachable through the public operations,
an active recording implies a non-null `entry_time`; the converse
direction fails because the exit transition releases the writer without
clearing `entry_time`, which once set is never cleared. -/
theorem recording_implies_entry_time (ops : List SysOp)
    (h : (runOps ops).outOpen = true) : (runOps ops).entry_time ≠ none := by
  suffices key : ∀ (l : List SysOp) (s : DetState),
      (s.outOpen = true → s.entry_time ≠ none) →
      ((l.foldl applyOp s).outOpen = true → (l.foldl applyOp s).entry_time ≠ none) by
    exact key ops initState (fun hh => absurd hh (by simp [initState])) h
  intro l
  induction l with
  | nil => exact fun s hs => hs
  | cons op rest ih =>
    intro s hs
    rw [List.foldl_cons]
    refine ih (applyOp s op) ?_
    cases op with
    | frame pc now wf ok => exact pfu_inv s pc now wf ok hs
    | stopCam => exact stopCamera_inv s hs

/-- Witness for C4 (amended): after five presence frames the recording is
open, so the entry timestamp is non-null. -/
theorem recording_implies_entry_time_witness :
    (runOps [SysOp.frame 1 1 false true, SysOp.frame 1 2 false true,
      SysOp.frame 1 3 false true, SysOp.frame 1 4 false true,
      SysOp.frame 1 5 false true]).entry_time ≠ none :=
  recording_implies_entry_time
    [SysOp.frame 1 1 false true, SysOp.frame 1 2 false true,
     SysOp.frame 1 3 false true, SysOp.frame 1 4 false true,
     SysOp.frame 1 5 false true] (by decide)

theorem sentTimes_spec (calls : List (ℤ × Bool)) : ∀ (s : DetState),
    0 < s.alert_cooldown →
    List.Pairwise (fun a b => s.alert_cooldown ≤ b - a) (sentTimes s calls) ∧
    ∀ t ∈ sentTimes s calls, s.last_alert_time + s.alert_cooldown ≤ t := by
  induction calls with
  | nil =>
    intro s hc
    exact ⟨List.Pairwise.nil, by simp [sentTimes, runDispatches]⟩
  | cons c rest ih =>
    intro s hc
    have hstep : sentTimes s (c :: rest) =
        (if (sendMessage s c.1 c.2).2 = SendResult.sent then [c.1] else []) ++
          sentTimes (sendMessage s c.1 c.2).1 rest := by
      simp only [sentTimes, runDispatches, List.filterMap_cons]
      split_ifs <;> simp_all
    by_cases h1 : s.twilio_enabled = false
    · have hsm : sendMessage s c.1 c.2 = (s, SendResult.notConfigured) := by
        unfold sendMessage
        rw [if_pos h1]
      rw [hstep, hsm]
      simpa using ih s hc
    · by_cases h2 : c.1 - s.last_alert_time < s.alert_cooldown
      · have hsm : sendMessage s c.1 c.2 = (s, SendResult.cooldownActive) := by
          unfold sendMessage
          rw [if_neg h1, if_pos h2]
        rw [hstep, hsm]
        simpa using ih s hc
      · cases hok : c.2 with
        | false =>
          have hsm : sendMessage s c.1 c.2 = (s, SendResult.failed) := by
            simp [sendMessage, h1, h2, hok]
          rw [hstep, hsm]
          simpa using ih s hc
        | true =>
          have hsm : sendMessage s c.1 c.2 =
              ({ s with last_alert_time := c.1 }, SendResult.sent) := by
            simp [sendMessage, h1, h2, hok]
          rw [hstep, hsm]
          obtain ⟨hpair, hlb⟩ := ih { s with last_alert_time := c.1 } hc
          simp only [List.singleton_append]
          constructor
          · refine List.Pairwise.cons (fun u hu => ?_) hpair
            have := hlb u hu
            dsimp only at this
            omega
          · intro t ht
            rcases List.mem_cons.1 ht with rfl | hmem
            · omega
            · have := hlb t hmem
              dsimp only at this
              omega

/-- C5: dispatch calls processed through `send_message` never send two
alerts fewer than `alert_cooldown` seconds apart (the sent times are
pairwise separated by at least the cooldown, in call order); a dispatch
attempted inside the cooldown window returns immediately with the state
unchanged — it is dropped, not queued; and the default cooldown is 300
seconds. -/
theorem alert_cooldown_contract (s : DetState) (hc : 0 < s.alert_cooldown) :
    (∀ calls, List.Pairwise (fun a b => s.alert_cooldown ≤ b - a) (sentTimes s calls)) ∧
    (∀ t ok, s.twilio_enabled = true → t - s.last_alert_time < s.alert_cooldown →
      sendMessage s t ok = (s, SendResult.cooldownActive)) ∧
    initState.alert_cooldown = 300 := by
  refine ⟨fun calls => (sentTimes_spec calls s hc).1, fun t ok htw hlt => ?_, rfl⟩
  unfold sendMessage
  rw [if_neg (by simp [htw]), if_pos hlt]

/-- Witness for C5: two successful dispatches 100 seconds apart from the
fresh system produce sent times separated by at least the cooldown
(only one of them is in fact sent). -/
theorem alert_cooldown_contract_witness :
    List.Pairwise (fun a b => initState.alert_cooldown ≤ b - a)
      (sentTimes initState [(400, true), (500, true)]) :=
  (alert_cooldown_contract initState (by decide)).1 [(400, true), (500, true)]

/-- C6 counterexample: a configuration update carrying a confidence
threshold of 2 — outside `(0,1]` — is not rejected: the call succeeds and
the prior value 1/2 is replaced rather than retained. -/
theorem settings_validation_counterexample :
    ¬((2 : ℚ) ≤ 1) ∧
    (updateSettings initState 2 2000 5 8).2 = true ∧
    (updateSettings initState 2 2000 5 8).1.confidence_threshold = 2 ∧
    initState.confidence_threshold = 1/2 :=
  ⟨by norm_num, rfl, rfl, rfl⟩

/-- C6 (amended): `update_settings` performs no validation: every call
stores all four values unconditionally, whatever they are; the call
completes (and rebuilds the presence window) exactly when the new
detection threshold is non-negative, and a negative threshold raises only
from the deque rebuild, after the four values are already stored, leaving
the old window in place.  No prior threshold value is ever retained. -/
theorem settings_update_unvalidated (s : DetState) (c : ℚ) (a p d : ℤ) :
    (updateSettings s c a p d).1.confidence_threshold = c ∧
    (updateSettings s c a p d).1.area_threshold = a ∧
    (updateSettings s c a p d).1.patience = p ∧
    (updateSettings s c a p d).1.detection_thresh = d ∧
    (updateSettings s c a p d).2 = decide (0 ≤ d) ∧
    (updateSettings s c a p d).1.de =
      (if 0 ≤ d then List.replicate d.toNat false else s.de) := by
  unfold updateSettings
  split_ifs with hd <;> simp_all

/-- C7 counterexample: with the tracker uninitialized and one observation,
`track_persons` returns person count 0, not the number of observations. -/
theorem tracker_unavailable_counterexample :
    trackPersons false false [obs1] = 0 ∧ [obs1].length = 1 := by
  decide

/-- C7 (amended): for a non-empty observation list, a raising
`tracker.update` degrades to the untracked observation set — the returned
count equals the number of input observations and nothing propagates —
while an uninitialized tracker yields count 0 instead. -/
theorem tracker_failure_degrades (dets : List PersonObs) (b : Bool) (h : dets ≠ []) :
    trackPersons true true dets = dets.length ∧ trackPersons false b dets = 0 := by
  have hne : dets.isEmpty = false := by
    cases dets with
    | nil => exact absurd rfl h
    | cons x xs => rfl
  unfold trackPersons
  simp [hne]

/-- Witness for C7 (amended): one observation with a raising tracker. -/
theorem tracker_failure_degrades_witness :
    trackPersons true true [obs1] = [obs1].length ∧ trackPersons false true [obs1] = 0 :=
  tracker_failure_degrades [obs1] true (by simp)

theorem bufRun_slot_aux (evs : List BufEvent) : ∀ (s : BufState),
    (evs.foldl bufStep s).slot = lastProducedFrom s.slot evs := by
  induction evs with
  | nil => intro s; rfl
  | cons e rest ih =>
    intro s
    cases e with
    | produce f =>
      rw [List.foldl_cons]
      exact ih _
    | consume =>
      rw [List.foldl_cons]
      exact ih _

theorem bufRun_consumed_aux (evs : List BufEvent) : ∀ (s : BufState),
    (evs.foldl bufStep s).consumed = s.consumed ++ consumeTrace s.slot evs := by
  induction evs with
  | nil => intro s; simp [consumeTrace]
  | cons e rest ih =>
    intro s
    cases e with
    | produce f =>
      rw [List.foldl_cons, ih]
      rfl
    | consume =>
      rw [List.foldl_cons, ih]
      simp [bufStep, consumeTrace]

theorem lastProducedFrom_some (rest : List BufEvent) : ∀ (g : ℕ),
    (lastProducedFrom (some g) rest).isSome = true := by
  induction rest with
  | nil => intro g; rfl
  | cons e r ih =>
    intro g
    cases e with
    | produce f => exact ih f
    | consume => exact ih g

theorem bufRun_slot (evs : List BufEvent) : (bufRun evs).slot = lastProduced evs :=
  bufRun_slot_aux evs { slot := none, consumed := [] }

theorem lastProducedFrom_isSome (evs : List BufEvent) : ∀ (cur : Option ℕ) (f : ℕ),
    BufEvent.produce f ∈ evs → (lastProducedFrom cur evs).isSome = true := by
  induction evs with
  | nil => intro cur f h; cases h
  | cons e rest ih =>
    intro cur f h
    cases e with
    | produce g => exact lastProducedFrom_some rest g
    | consume =>
      rcases List.mem_cons.1 h with heq | hr
      · cases heq
      · exact ih cur f hr

/-- C8: the grabber thread and the processing loop cooperate through one
single-slot latest-frame cell: for every interleaving of producer writes
and consumer fetches, the slot holds exactly the most recently produced
frame (each write overwrites it, older frames are dropped and never
queued), every consumer fetch observes the most recently produced frame
at that point, at most one frame is ever buffered, and once any frame has
been produced the number of buffered frames is exactly 1. -/
theorem single_slot_buffer (evs : List BufEvent) :
    (bufRun evs).slot = lastProduced evs ∧
    (bufRun evs).consumed = consumeTrace none evs ∧
    bufCount (bufRun evs) ≤ 1 ∧
    (∀ f, BufEvent.produce f ∈ evs → bufCount (bufRun evs) = 1) := by
  refine ⟨bufRun_slot evs, ?_, ?_, fun f hf => ?_⟩
  · simpa using bufRun_consumed_aux evs { slot := none, consumed := [] }
  · unfold bufCount
    split_ifs <;> omega
  · unfold bufCount
    rw [bufRun_slot evs]
    rw [if_pos (show (lastProduced evs).isSome = true from
      lastProducedFrom_isSome evs none f hf)]

/-- Witness for C8: after two writes and one fetch, exactly one frame is
buffered. -/
theorem single_slot_buffer_witness :
    bufCount (bufRun [BufEvent.produce 7, BufEvent.produce 8, BufEvent.consume]) = 1 :=
  (single_slot_buffer [BufEvent.produce 7, BufEvent.produce 8, BufEvent.consume]).2.2.2 7
    (by simp)

end Surveillance
